import Mathlib

/-!
Shallow embedding of the configuration and command-line logic of
`new_cli_project_template` (files `config.py`, `ai_utils.py`, `__main__.py`).

Conventions used throughout:
* Python `str | None` values become `Option String`; Python truthiness of such
  a value (`if x:`) is `pyTruthyStr`, which is false for `None` and for `""`.
* Python floats are modelled as rationals (`ℚ`): the program only ever stores,
  compares (`0.0 <= t <= 2.0`) and forwards temperatures, so the embedding is
  faithful on every non-NaN float the program can see.
* Fallible operations return `Except String α`; the error string is the
  message the Python code puts in the raised exception.
-/

namespace CliTemplate

/-- The provider enumeration used by the application (the members listed in
the example config in `config.py`: OpenAI, Anthropic, Google, Groq, XAI,
Mistral, Bedrock, Ollama, LlamaCpp). -/
inductive LlmProvider where
  | openai
  | anthropic
  | google
  | groq
  | xai
  | mistral
  | bedrock
  | ollama
  | llamacpp
deriving DecidableEq, Repr

/-- Python truthiness of an optional string: `None` and `""` are falsy. -/
def pyTruthyStr : Option String → Bool
  | none => false
  | some s => s != ""

/-- Python `x or y` on `str | None` values: `x` wins iff it is truthy
(non-`None` and non-empty), otherwise `y` is used. -/
def pyOrStr (x y : Option String) : Option String :=
  if pyTruthyStr x then x else y

/-- Python `str.strip()` with no argument: remove leading and trailing
whitespace.  (Defined by structural recursion on the character list so
that concrete inputs evaluate inside the kernel.) -/
def pyStrip (s : String) : String :=
  ⟨((s.data.dropWhile Char.isWhitespace).reverse.dropWhile Char.isWhitespace).reverse⟩

/-- `ConfigFile` (config.py lines 28-36): the pydantic model holding the
values read from the TOML file. -/
structure ConfigFile where
  ai_provider : LlmProvider
  model : Option String
  light_model : Bool
  ai_base_url : Option String
  temperature : ℚ
  debug : Bool
deriving DecidableEq, Repr

/-- The all-default `ConfigFile`: provider OpenAI, no model, light_model
false, no base URL, temperature 0.5, debug false. -/
def defaultConfigFile : ConfigFile :=
  ⟨LlmProvider.openai, none, false, none, 1/2, false⟩

/-- `AppConfig` (config.py lines 17-26): the effective runtime
configuration produced by `merge_config`. -/
structure AppConfig where
  ai_provider : LlmProvider
  model : Option String
  light_model : Bool
  ai_base_url : Option String
  temperature : ℚ
  debug : Bool
deriving DecidableEq, Repr

/-- `merge_config` (config.py lines 121-139).  The provider and the two
string fields use Python `or` (`cli or file`); an enum member is always
truthy in Python, so for `ai_provider` this is exactly `Option.getD`.  The
boolean and numeric fields use `cli if cli is not None else file`, which is
also `Option.getD`. -/
def merge_config (file_config : ConfigFile) (cli_ai_provider : Option LlmProvider)
    (cli_model : Option String) (cli_light_model : Option Bool)
    (cli_ai_base_url : Option String) (cli_temperature : Option ℚ)
    (cli_debug : Option Bool) : AppConfig :=
  ⟨cli_ai_provider.getD file_config.ai_provider,
   pyOrStr cli_model file_config.model,
   cli_light_model.getD file_config.light_model,
   pyOrStr cli_ai_base_url file_config.ai_base_url,
   cli_temperature.getD file_config.temperature,
   cli_debug.getD file_config.debug⟩

/-- C1 counterexample: with a file config whose model is `"file-model"`, a
CLI-supplied model equal to the empty string does not override the file
value — `merge_config` returns `"file-model"`, not the supplied `""`.  The
claim asserts the CLI value wins for any supplied string. -/
theorem merge_config_empty_string_counterexample :
    (merge_config ⟨LlmProvider.openai, some "file-model", false, none, 1/2, false⟩
        none (some "") none none none none).model = some "file-model" ∧
    some "file-model" ≠ some "" := by
  constructor
  · rfl
  · decide

/-- C1 (amended): `merge_config` returns the CLI value whenever one is
present — for the string fields `model` and `ai_base_url` "present" means
non-`None` and non-empty, because the code merges them with Python `or` —
and the file value otherwise; under that proviso the precedence CLI > file
is strict and total for all six fields. -/
theorem merge_config_cli_precedence (fc : ConfigFile) (cp : Option LlmProvider)
    (cm : Option String) (cl : Option Bool) (cb : Option String)
    (ct : Option ℚ) (cd : Option Bool)
    (hm : ∀ s, cm = some s → s ≠ "") (hb : ∀ s, cb = some s → s ≠ "") :
    (∀ p, cp = some p → (merge_config fc cp cm cl cb ct cd).ai_provider = p) ∧
    (cp = none → (merge_config fc cp cm cl cb ct cd).ai_provider = fc.ai_provider) ∧
    (∀ s, cm = some s → (merge_config fc cp cm cl cb ct cd).model = some s) ∧
    (cm = none → (merge_config fc cp cm cl cb ct cd).model = fc.model) ∧
    (∀ b, cl = some b → (merge_config fc cp cm cl cb ct cd).light_model = b) ∧
    (cl = none → (merge_config fc cp cm cl cb ct cd).light_model = fc.light_model) ∧
    (∀ s, cb = some s → (merge_config fc cp cm cl cb ct cd).ai_base_url = some s) ∧
    (cb = none → (merge_config fc cp cm cl cb ct cd).ai_base_url = fc.ai_base_url) ∧
    (∀ t, ct = some t → (merge_config fc cp cm cl cb ct cd).temperature = t) ∧
    (ct = none → (merge_config fc cp cm cl cb ct cd).temperature = fc.temperature) ∧
    (∀ b, cd = some b → (merge_config fc cp cm cl cb ct cd).debug = b) ∧
    (cd = none → (merge_config fc cp cm cl cb ct cd).debug = fc.debug) := by
  refine ⟨?_, ?_, ?_, ?_, ?_, ?_, ?_, ?_, ?_, ?_, ?_, ?_⟩ <;>
    first
    | (intro x hx; subst hx;
       simp_all [merge_config, pyOrStr, pyTruthyStr])
    | (intro hx; subst hx;
       simp_all [merge_config, pyOrStr, pyTruthyStr])

/-- Witness for C1 (amended) at a concrete input. -/
theorem merge_config_cli_precedence_witness :
    (∀ p, (some LlmProvider.ollama) = some p →
      (merge_config defaultConfigFile (some LlmProvider.ollama) (some "m")
        (some true) (some "u") (some 1) (some true)).ai_provider = p) ∧
    ((some LlmProvider.ollama : Option LlmProvider) = none →
      (merge_config defaultConfigFile (some LlmProvider.ollama) (some "m")
        (some true) (some "u") (some 1) (some true)).ai_provider = defaultConfigFile.ai_provider) ∧
    (∀ s, (some "m") = some s →
      (merge_config defaultConfigFile (some LlmProvider.ollama) (some "m")
        (some true) (some "u") (some 1) (some true)).model = some s) ∧
    ((some "m" : Option String) = none →
      (merge_config defaultConfigFile (some LlmProvider.ollama) (some "m")
        (some true) (some "u") (some 1) (some true)).model = defaultConfigFile.model) ∧
    (∀ b, (some true) = some b →
      (merge_config defaultConfigFile (some LlmProvider.ollama) (some "m")
        (some true) (some "u") (some 1) (some true)).light_model = b) ∧
    ((some true : Option Bool) = none →
      (merge_config defaultConfigFile (some LlmProvider.ollama) (some "m")
        (some true) (some "u") (some 1) (some true)).light_model = defaultConfigFile.light_model) ∧
    (∀ s, (some "u") = some s →
      (merge_config defaultConfigFile (some LlmProvider.ollama) (some "m")
        (some true) (some "u") (some 1) (some true)).ai_base_url = some s) ∧
    ((some "u" : Option String) = none →
      (merge_config defaultConfigFile (some LlmProvider.ollama) (some "m")
        (some true) (some "u") (some 1) (some true)).ai_base_url = defaultConfigFile.ai_base_url) ∧
    (∀ t, (some (1 : ℚ)) = some t →
      (merge_config defaultConfigFile (some LlmProvider.ollama) (some "m")
        (some true) (some "u") (some 1) (some true)).temperature = t) ∧
    ((some (1 : ℚ) : Option ℚ) = none →
      (merge_config defaultConfigFile (some LlmProvider.ollama) (some "m")
        (some true) (some "u") (some 1) (some true)).temperature = defaultConfigFile.temperature) ∧
    (∀ b, (some true) = some b →
      (merge_config defaultConfigFile (some LlmProvider.ollama) (some "m")
        (some true) (some "u") (some 1) (some true)).debug = b) ∧
    ((some true : Option Bool) = none →
      (merge_config defaultConfigFile (some LlmProvider.ollama) (some "m")
        (some true) (some "u") (some 1) (some true)).debug = defaultConfigFile.debug) :=
  merge_config_cli_precedence defaultConfigFile (some LlmProvider.ollama) (some "m")
    (some true) (some "u") (some 1) (some true)
    (by intro s hs; simp at hs; subst hs; decide)
    (by intro s hs; simp at hs; subst hs; decide)

/-- C2: the boolean and numeric fields (`light_model`, `debug`,
`temperature`) merge with a tri-state convention: a CLI value of `none`
yields the file value, and an explicitly supplied `false` or `0` overrides
the file value. -/
theorem merge_config_tristate (fc : ConfigFile) (cp : Option LlmProvider)
    (cm : Option String) (cl : Option Bool) (cb : Option String)
    (ct : Option ℚ) (cd : Option Bool) :
    ((merge_config fc cp cm cl cb ct cd).light_model = cl.getD fc.light_model) ∧
    ((merge_config fc cp cm cl cb ct cd).temperature = ct.getD fc.temperature) ∧
    ((merge_config fc cp cm cl cb ct cd).debug = cd.getD fc.debug) ∧
    ((merge_config fc cp cm (some false) cb (some 0) (some false)).light_model = false) ∧
    ((merge_config fc cp cm (some false) cb (some 0) (some false)).temperature = 0) ∧
    ((merge_config fc cp cm (some false) cb (some 0) (some false)).debug = false) := by
  refine ⟨rfl, rfl, rfl, rfl, rfl, rfl⟩

/-- The fields a parsed TOML config document may supply (each `none` when
the key is absent from the file).  Keys that pydantic would reject for type
reasons are summarised by the read result being an error upstream. -/
structure RawConfig where
  ai_provider : Option LlmProvider
  model : Option (Option String)
  light_model : Option Bool
  ai_base_url : Option (Option String)
  temperature : Option ℚ
  debug : Option Bool
deriving DecidableEq, Repr

/-- Pydantic validation of `ConfigFile(**config_data)` (config.py lines
28-36): each absent field takes its default, and the `temperature` field
carries the constraint `ge=0.0, le=2.0`; a value outside `[0, 2]` makes
construction fail. -/
def validateConfigFile (raw : RawConfig) : Except String ConfigFile :=
  let t := raw.temperature.getD (1/2)
  if 0 ≤ t ∧ t ≤ 2 then
    Except.ok
      ⟨raw.ai_provider.getD LlmProvider.openai,
       (raw.model.getD none),
       raw.light_model.getD false,
       (raw.ai_base_url.getD none),
       t,
       raw.debug.getD false⟩
  else
    Except.error "Input should be less than or equal to 2 and greater than or equal to 0"

/-- `load_config_file` (config.py lines 50-65).  The file system and TOML
parser are abstracted by `pathExists` and `readResult`: `readResult` is the
outcome of `open` + `tomllib.load` (an error for any I/O or parse failure).
The Boolean in the result records whether the warning branch ran.  The
function is total — every failure path returns the all-default record — so
the embedding of "never raises" is that its result type is plain
`ConfigFile × Bool`, not `Except`. -/
def load_config_file (pathExists : Bool) (readResult : Except String RawConfig) :
    ConfigFile × Bool :=
  if !pathExists then
    (defaultConfigFile, false)
  else
    match readResult with
    | Except.error _ => (defaultConfigFile, true)
    | Except.ok raw =>
      match validateConfigFile raw with
      | Except.error _ => (defaultConfigFile, true)
      | Except.ok cfg => (cfg, false)

/-- A raw config document supplying only a temperature. -/
def rawWithTemperature (t : ℚ) : RawConfig :=
  ⟨none, none, none, none, some t, none⟩

/-- C3: any configuration built by `load_config_file` followed by
`merge_config` has its temperature in `[0, 2]`, provided the CLI
temperature, when supplied, is in `[0, 2]` (the `--temperature` option is
declared with `min=0.0, max=2.0`, \_\_main\_\_.py lines 161-170, so the
program never passes an out-of-range CLI value); and a config file with
temperature 2.5 fails validation, falling back to the all-default record
with temperature 0.5 — never the invalid value. -/
theorem load_merge_temperature_in_range (pathExists : Bool)
    (readResult : Except String RawConfig) (cp : Option LlmProvider)
    (cm : Option String) (cl : Option Bool) (cb : Option String)
    (ct : Option ℚ) (cd : Option Bool)
    (hct : ∀ t, ct = some t → 0 ≤ t ∧ t ≤ 2) :
    (0 ≤ (merge_config (load_config_file pathExists readResult).1
            cp cm cl cb ct cd).temperature ∧
     (merge_config (load_config_file pathExists readResult).1
            cp cm cl cb ct cd).temperature ≤ 2) ∧
    load_config_file true (Except.ok (rawWithTemperature (5/2))) =
      (defaultConfigFile, true) ∧
    defaultConfigFile.temperature = 1/2 := by
  refine ⟨?_, ?_, rfl⟩
  case refine_2 =>
    have h25 : ¬((0:ℚ) ≤ 5/2 ∧ (5:ℚ)/2 ≤ 2) := by norm_num
    simp [load_config_file, validateConfigFile, rawWithTemperature, h25]
  have hfile : 0 ≤ (load_config_file pathExists readResult).1.temperature ∧
      (load_config_file pathExists readResult).1.temperature ≤ 2 := by
    unfold load_config_file
    cases pathExists with
    | false => simp [defaultConfigFile]; norm_num
    | true =>
      cases readResult with
      | error e => simp [defaultConfigFile]; norm_num
      | ok raw =>
        simp only [Bool.not_true, Bool.false_eq_true, if_false]
        unfold validateConfigFile
        set t := raw.temperature.getD (1/2) with ht
        by_cases h : 0 ≤ t ∧ t ≤ 2
        · simp [h]
        · simp [h, defaultConfigFile]; norm_num
  cases ct with
  | none => simpa [merge_config] using hfile
  | some t =>
    have := hct t rfl
    simpa [merge_config] using this

/-- Witness for C3 at a concrete input. -/
theorem load_merge_temperature_in_range_witness :
    (0 ≤ (merge_config (load_config_file true (Except.ok (rawWithTemperature 2))).1
            none none none none (some 1) none).temperature ∧
     (merge_config (load_config_file true (Except.ok (rawWithTemperature 2))).1
            none none none none (some 1) none).temperature ≤ 2) ∧
    load_config_file true (Except.ok (rawWithTemperature (5/2))) =
      (defaultConfigFile, true) ∧
    defaultConfigFile.temperature = 1/2 :=
  load_merge_temperature_in_range true (Except.ok (rawWithTemperature 2))
    none none none none (some 1) none
    (by intro t htt; simp at htt; subst htt; norm_num)

/-- C4: `load_config_file` never raises — it is a total function into
`ConfigFile × Bool` — and: when the resolved path does not exist it returns
the all-default record silently; when reading/parsing fails it warns and
returns the all-default record; when validation fails it warns and returns
the all-default record. -/
theorem load_config_file_fail_open (readResult : Except String RawConfig) :
    (load_config_file false readResult = (defaultConfigFile, false)) ∧
    (∀ msg, readResult = Except.error msg →
      load_config_file true readResult = (defaultConfigFile, true)) ∧
    (∀ raw msg, readResult = Except.ok raw →
      validateConfigFile raw = Except.error msg →
      load_config_file true readResult = (defaultConfigFile, true)) := by
  refine ⟨rfl, ?_, ?_⟩
  · intro msg h
    subst h
    rfl
  · intro raw msg h hv
    subst h
    simp [load_config_file, hv]

/-- Witness for C4 at a concrete input. -/
theorem load_config_file_fail_open_witness :
    (load_config_file false (Except.error "boom") = (defaultConfigFile, false)) ∧
    (∀ msg, (Except.error "boom" : Except String RawConfig) = Except.error msg →
      load_config_file true (Except.error "boom") = (defaultConfigFile, true)) ∧
    (∀ raw msg, (Except.error "boom" : Except String RawConfig) = Except.ok raw →
      validateConfigFile raw = Except.error msg →
      load_config_file true (Except.error "boom") = (defaultConfigFile, true)) :=
  load_config_file_fail_open (Except.error "boom")

/-- The fixed allow-list of providers that need no API key
(config.py line 73): Ollama, LlamaCpp, Bedrock. -/
def isNoKeyProvider : LlmProvider → Bool
  | LlmProvider.ollama => true
  | LlmProvider.llamacpp => true
  | LlmProvider.bedrock => true
  | _ => false

/-- `validate_environment` (config.py lines 68-83).  The external map
`provider_env_key_names` is the parameter `envKeyNames`, and the process
environment is `env` (`env k = none` for an unset variable).  The code
raises `ValueError` when `os.environ.get(key_name)` is falsy, i.e. when the
variable is unset or set to the empty string. -/
def validate_environment (envKeyNames : LlmProvider → String)
    (env : String → Option String) (ai_provider : LlmProvider) :
    Except String Unit :=
  if isNoKeyProvider ai_provider then
    Except.ok ()
  else
    let key_name := envKeyNames ai_provider
    if !pyTruthyStr (env key_name) then
      Except.error ("Missing required environment variable: " ++ key_name)
    else
      Except.ok ()

/-- C5: `validate_environment` returns normally for every provider in the
no-key allow-list (Ollama, LlamaCpp, Bedrock) in any environment; for every
other provider it returns an error iff the provider's credential variable
is unset or empty, and the error message names that exact variable. -/
theorem validate_environment_spec (envKeyNames : LlmProvider → String)
    (env : String → Option String) (p : LlmProvider) :
    (isNoKeyProvider p = true →
      validate_environment envKeyNames env p = Except.ok ()) ∧
    (isNoKeyProvider p = false →
      validate_environment envKeyNames env p =
        (if env (envKeyNames p) = none ∨ env (envKeyNames p) = some "" then
          Except.error ("Missing required environment variable: " ++ envKeyNames p)
        else
          Except.ok ())) := by
  constructor
  · intro h
    simp [validate_environment, h]
  · intro h
    simp only [validate_environment, h, Bool.false_eq_true, if_false]
    cases henv : env (envKeyNames p) with
    | none => simp [pyTruthyStr]
    | some v =>
      by_cases hv : v = ""
      · subst hv
        simp [pyTruthyStr]
      · simp [pyTruthyStr, hv]

/-- Witness for C5 at concrete inputs. -/
theorem validate_environment_spec_witness :
    ((isNoKeyProvider LlmProvider.ollama = true →
      validate_environment (fun _ => "OPENAI_API_KEY") (fun _ => none)
        LlmProvider.ollama = Except.ok ()) ∧
    (isNoKeyProvider LlmProvider.ollama = false →
      validate_environment (fun _ => "OPENAI_API_KEY") (fun _ => none)
        LlmProvider.ollama =
        (if (fun _ : String => (none : Option String)) ((fun _ : LlmProvider => "OPENAI_API_KEY") LlmProvider.ollama) = none ∨
            (fun _ : String => (none : Option String)) ((fun _ : LlmProvider => "OPENAI_API_KEY") LlmProvider.ollama) = some "" then
          Except.error ("Missing required environment variable: " ++
            (fun _ : LlmProvider => "OPENAI_API_KEY") LlmProvider.ollama)
        else
          Except.ok ()))) ∧
    ((isNoKeyProvider LlmProvider.openai = true →
      validate_environment (fun _ => "OPENAI_API_KEY") (fun _ => none)
        LlmProvider.openai = Except.ok ()) ∧
    (isNoKeyProvider LlmProvider.openai = false →
      validate_environment (fun _ => "OPENAI_API_KEY") (fun _ => none)
        LlmProvider.openai =
        (if (fun _ : String => (none : Option String)) ((fun _ : LlmProvider => "OPENAI_API_KEY") LlmProvider.openai) = none ∨
            (fun _ : String => (none : Option String)) ((fun _ : LlmProvider => "OPENAI_API_KEY") LlmProvider.openai) = some "" then
          Except.error ("Missing required environment variable: " ++
            (fun _ : LlmProvider => "OPENAI_API_KEY") LlmProvider.openai)
        else
          Except.ok ()))) :=
  ⟨validate_environment_spec (fun _ => "OPENAI_API_KEY") (fun _ => none) LlmProvider.ollama,
   validate_environment_spec (fun _ => "OPENAI_API_KEY") (fun _ => none) LlmProvider.openai⟩

/-- An input-file argument as `read_prompt_from_input` sees it: a path
(always truthy in Python) together with whether it exists and, when it
does, its contents. -/
structure FileArg where
  fileExists : Bool
  contents : String
deriving DecidableEq, Repr

/-- `read_prompt_from_input` (ai_utils.py lines 164-204).  Standard input
is abstracted by `stdinContent` (what `sys.stdin.read()` would return).
Python `.strip()` is `pyStrip`. -/
def read_prompt_from_input (prompt : Option String) (input_file : Option FileArg)
    (stdin : Bool) (stdinContent : String) : Except String String :=
  if pyTruthyStr prompt then
    Except.ok (prompt.getD "")
  else if input_file.isSome && (input_file.getD ⟨false, ""⟩).fileExists then
    Except.ok (pyStrip (input_file.getD ⟨false, ""⟩).contents)
  else if stdin || (!pyTruthyStr prompt && !input_file.isSome) then
    let content := pyStrip stdinContent
    if content = "" then
      Except.error "No input provided"
    else
      Except.ok content
  else if input_file.isSome && !(input_file.getD ⟨false, ""⟩).fileExists then
    Except.error "Input file does not exist"
  else
    Except.error "No valid input source provided"

/-- C6 counterexample: with a prompt flag supplied as the empty string and
an existing input file containing `"hello"`, the function returns the
file's contents, not the prompt flag's text — the empty prompt is treated
as absent, contradicting the claim that the prompt flag always wins when
both are given. -/
theorem read_prompt_empty_flag_counterexample :
    read_prompt_from_input (some "") (some ⟨true, "hello"⟩) false "ignored" =
      Except.ok "hello" ∧
    ("hello" : String) ≠ "" := by
  constructor
  · rfl
  · decide

/-- C6 (amended): input sources resolve by priority flag > file > stdin,
where a prompt flag counts as supplied only when non-empty: a non-empty
prompt flag wins over any file and stdin; with no (truthy) prompt an
existing file's trimmed contents are returned; with neither, stdin is read
and trimmed, and a payload that is empty after trimming is an error
(`"No input provided"`). -/
theorem read_prompt_priority (p sc : String) (hp : p ≠ "") (f : FileArg)
    (hf : f.fileExists = true) :
    (∀ g : Option FileArg, ∀ st : Bool,
      read_prompt_from_input (some p) g st sc = Except.ok p) ∧
    read_prompt_from_input none (some f) false sc = Except.ok (pyStrip f.contents) ∧
    read_prompt_from_input none none true sc =
      (if pyStrip sc = "" then Except.error "No input provided"
       else Except.ok (pyStrip sc)) ∧
    (pyStrip sc = "" →
      read_prompt_from_input none none true sc = Except.error "No input provided") := by
  refine ⟨?_, ?_, ?_, ?_⟩
  · intro g st
    simp [read_prompt_from_input, pyTruthyStr, hp]
  · simp [read_prompt_from_input, pyTruthyStr, hf]
  · by_cases h : pyStrip sc = "" <;>
      simp [read_prompt_from_input, pyTruthyStr, h]
  · intro h
    simp [read_prompt_from_input, pyTruthyStr, h]

/-- Witness for C6 (amended) at concrete inputs. -/
theorem read_prompt_priority_witness :
    (∀ g : Option FileArg, ∀ st : Bool,
      read_prompt_from_input (some "ask") g st "  " = Except.ok "ask") ∧
    read_prompt_from_input none (some ⟨true, " hi "⟩) false "  " =
      Except.ok (pyStrip " hi ") ∧
    read_prompt_from_input none none true "  " =
      (if pyStrip "  " = "" then Except.error "No input provided"
       else Except.ok (pyStrip "  ")) ∧
    (pyStrip "  " = "" →
      read_prompt_from_input none none true "  " = Except.error "No input provided") :=
  read_prompt_priority "ask" "  " (by decide) ⟨true, " hi "⟩ rfl

/-- `get_model_name` (ai_utils.py lines 28-45).  The external maps
`provider_light_models` and `provider_default_models` are the parameters
`lightModels` and `defaultModels`.  `if model:` is Python truthiness, so an
empty-string model falls through to the provider tables. -/
def get_model_name (lightModels defaultModels : LlmProvider → String)
    (ai_provider : LlmProvider) (model : Option String) (light_model : Bool) :
    String :=
  if pyTruthyStr model then
    model.getD ""
  else if light_model then
    lightModels ai_provider
  else
    defaultModels ai_provider

/-- C10: `get_model_name` returns the explicitly supplied model whenever it
is non-empty; otherwise it returns the provider's light model when
`light_model` is true and the provider's default model otherwise. -/
theorem get_model_name_precedence (lightModels defaultModels : LlmProvider → String)
    (p : LlmProvider) (model : Option String) (b : Bool) :
    (∀ m, model = some m → m ≠ "" →
      get_model_name lightModels defaultModels p model b = m) ∧
    (model = none ∨ model = some "" →
      get_model_name lightModels defaultModels p model b =
        (if b then lightModels p else defaultModels p)) := by
  constructor
  · intro m hm hne
    subst hm
    simp [get_model_name, pyTruthyStr, hne]
  · intro h
    rcases h with h | h <;> subst h <;>
      by_cases hb : b <;> simp [get_model_name, pyTruthyStr, hb]

/-- Witness for C10 at concrete inputs. -/
theorem get_model_name_precedence_witness :
    (∀ m, (some "gpt-4o" : Option String) = some m → m ≠ "" →
      get_model_name (fun _ => "light") (fun _ => "full")
        LlmProvider.openai (some "gpt-4o") true = m) ∧
    ((some "gpt-4o" : Option String) = none ∨ (some "gpt-4o" : Option String) = some "" →
      get_model_name (fun _ => "light") (fun _ => "full")
        LlmProvider.openai (some "gpt-4o") true =
        (if true then (fun _ : LlmProvider => "light") LlmProvider.openai
         else (fun _ : LlmProvider => "full") LlmProvider.openai)) :=
  get_model_name_precedence (fun _ => "light") (fun _ => "full")
    LlmProvider.openai (some "gpt-4o") true

/-- The content of an external-client message: either a string or a
structured multi-part payload (a list of strings in the mocked client). -/
inductive PyContent where
  | strC (s : String)
  | listC (parts : List String)
deriving DecidableEq, Repr

/-- The apostrophe character, used by Python `str()` of a list. -/
def pyQuoteChar : String := String.singleton (Char.ofNat 39)

/-- Python `str()` of a content value: a string is itself; a list of
strings renders as a bracketed, comma-separated, quoted sequence. -/
def pyStrOfContent : PyContent → String
  | PyContent.strC s => s
  | PyContent.listC ps =>
    "[" ++ String.intercalate ", "
      (ps.map (fun s => pyQuoteChar ++ s ++ pyQuoteChar)) ++ "]"

/-- Python truthiness of a content value (`if chunk.content:`): a string is
truthy iff non-empty, a list iff non-empty. -/
def pyContentTruthy : PyContent → Bool
  | PyContent.strC s => s != ""
  | PyContent.listC ps => !ps.isEmpty

/-- A deterministic (mocked) external chat model: `invokeContent` is what
`chat_model.invoke(...)` returns as `result.content`, and `streamChunks`
are the `chunk.content` values produced by `chat_model.stream(...)`. -/
structure MockChatModel where
  invokeContent : PyContent
  streamChunks : List PyContent
deriving DecidableEq, Repr

/-- `process_ai_request` (ai_utils.py lines 100-116), with the external
client mocked: returns `result.content` when it is a string, otherwise
`str(result.content)`. -/
def process_ai_request (chat_model : MockChatModel) : String :=
  match chat_model.invokeContent with
  | PyContent.strC s => s
  | PyContent.listC ps => pyStrOfContent (PyContent.listC ps)

/-- `stream_ai_response` (ai_utils.py lines 148-161), with the external
client mocked: yields, for each truthy chunk in order, the chunk when it is
a string and `str(chunk)` otherwise. -/
def stream_ai_response (chat_model : MockChatModel) : List String :=
  (chat_model.streamChunks.filter pyContentTruthy).map
    (fun c =>
      match c with
      | PyContent.strC s => s
      | PyContent.listC ps => pyStrOfContent (PyContent.listC ps))

/-- Concatenation of the fragments yielded during streaming (the
accumulator the callers build by appending each chunk). -/
def concatFragments : List String → String
  | [] => ""
  | s :: rest => s ++ concatFragments rest

theorem empty_append_str (s : String) : "" ++ s = s := by
  cases s
  rfl

theorem concat_filter_strC (chunks : List String) :
    concatFragments
      (((chunks.map PyContent.strC).filter pyContentTruthy).map
        (fun c =>
          match c with
          | PyContent.strC s => s
          | PyContent.listC ps => pyStrOfContent (PyContent.listC ps))) =
      concatFragments chunks := by
  induction chunks with
  | nil => rfl
  | cons a l ih =>
    by_cases h : a = ""
    · subst h
      simpa [pyContentTruthy, concatFragments, empty_append_str] using ih
    · simp [pyContentTruthy, h, concatFragments, ih]

/-- C7: when the external client is deterministic — its single-shot content
is a string equal to the concatenation of its (string) stream chunks — the
concatenation of all fragments yielded by `stream_ai_response` equals the
string returned by `process_ai_request`. -/
theorem stream_concat_eq_process (m : MockChatModel) (chunks : List String)
    (content : String)
    (h1 : m.invokeContent = PyContent.strC content)
    (h2 : m.streamChunks = chunks.map PyContent.strC)
    (h3 : concatFragments chunks = content) :
    concatFragments (stream_ai_response m) = process_ai_request m := by
  subst h3
  unfold process_ai_request stream_ai_response
  rw [h1, h2]
  exact concat_filter_strC chunks

/-- Witness for C7: mock stream `["Hel", "lo"]` and mock invoke `"Hello"`
both produce `"Hello"`. -/
theorem stream_concat_eq_process_witness :
    concatFragments (stream_ai_response
      ⟨PyContent.strC "Hello", [PyContent.strC "Hel", PyContent.strC "lo"]⟩) =
    process_ai_request
      ⟨PyContent.strC "Hello", [PyContent.strC "Hel", PyContent.strC "lo"]⟩ :=
  stream_concat_eq_process
    ⟨PyContent.strC "Hello", [PyContent.strC "Hel", PyContent.strC "lo"]⟩
    ["Hel", "lo"] "Hello" rfl rfl (by decide)

/-- Python `str.lower()` (ASCII case folding, as `Char.toLower` performs). -/
def pyLower (s : String) : String :=
  ⟨s.data.map Char.toLower⟩

/-- The chat loop's exit test (\_\_main\_\_.py line 357):
`user_input.lower() in {"quit", "exit", "q"}`. -/
def isQuitCommand (user_input : String) : Bool :=
  pyLower user_input == "quit" || pyLower user_input == "exit" ||
    pyLower user_input == "q"

/-- What one iteration of the chat loop does with the line read from the
user. -/
inductive ChatAction where
  | terminate
  | skip
  | respond (msg : String)
deriving DecidableEq, Repr

/-- One iteration of the chat loop body (\_\_main\_\_.py lines 355-366):
strip the line, break on a quit token, skip an empty line, otherwise stream
a response for the stripped input. -/
def chatStep (line : String) : ChatAction :=
  let user_input := pyStrip line
  if isQuitCommand user_input then
    ChatAction.terminate
  else if user_input == "" then
    ChatAction.skip
  else
    ChatAction.respond user_input

/-- The chat loop (\_\_main\_\_.py lines 353-371) over a finite sequence of
input lines (an exhausted sequence models end-of-input, which also ends the
loop): returns the list of model calls made, in order, and whether the loop
was terminated by a quit token. -/
def runChatLoop : List String → List String × Bool
  | [] => ([], false)
  | line :: rest =>
    match chatStep line with
    | ChatAction.terminate => ([], true)
    | ChatAction.skip => runChatLoop rest
    | ChatAction.respond msg =>
      let r := runChatLoop rest
      (msg :: r.1, r.2)

/-- C8: a line whose stripped form is `quit`, `exit` or `q` in any letter
case terminates the chat loop immediately with no model call; a line that
is empty after stripping is skipped — the loop behaves exactly as it would
on the remaining input, without terminating and without a model call. -/
theorem chat_loop_quit_and_empty (line line2 : String) (rest : List String)
    (hq : isQuitCommand (pyStrip line) = true) (he : pyStrip line2 = "") :
    runChatLoop (line :: rest) = ([], true) ∧
    runChatLoop (line2 :: rest) = runChatLoop rest := by
  constructor
  · simp [runChatLoop, chatStep, hq]
  · have hnq : isQuitCommand "" = false := by decide
    simp [runChatLoop, chatStep, he, hnq]

/-- Witness for C8: `"QuIt"` (mixed case) terminates; a whitespace line is
skipped. -/
theorem chat_loop_quit_and_empty_witness :
    runChatLoop ("QuIt" :: ["later"]) = ([], true) ∧
    runChatLoop ("  " :: ["later"]) = runChatLoop ["later"] :=
  chat_loop_quit_and_empty "QuIt" "  " ["later"] (by decide) (by decide)

/-- The Python exception classes that reach the command surface.
`typerExitC` is `typer.Exit`, which subclasses `click.exceptions.Exit`,
which subclasses `RuntimeError`; `KeyboardInterrupt` subclasses
`BaseException` directly, not `Exception`. -/
inductive ExcClass where
  | baseExceptionC
  | exceptionC
  | keyboardInterruptC
  | runtimeErrorC
  | clickExitC
  | typerExitC
  | valueErrorC
  | eofErrorC
deriving DecidableEq, Repr

/-- The superclass chain of each class, the class itself first. -/
def ancestors : ExcClass → List ExcClass
  | ExcClass.baseExceptionC => [ExcClass.baseExceptionC]
  | ExcClass.exceptionC => [ExcClass.exceptionC, ExcClass.baseExceptionC]
  | ExcClass.keyboardInterruptC => [ExcClass.keyboardInterruptC, ExcClass.baseExceptionC]
  | ExcClass.runtimeErrorC =>
    [ExcClass.runtimeErrorC, ExcClass.exceptionC, ExcClass.baseExceptionC]
  | ExcClass.clickExitC =>
    [ExcClass.clickExitC, ExcClass.runtimeErrorC, ExcClass.exceptionC,
     ExcClass.baseExceptionC]
  | ExcClass.typerExitC =>
    [ExcClass.typerExitC, ExcClass.clickExitC, ExcClass.runtimeErrorC,
     ExcClass.exceptionC, ExcClass.baseExceptionC]
  | ExcClass.valueErrorC =>
    [ExcClass.valueErrorC, ExcClass.exceptionC, ExcClass.baseExceptionC]
  | ExcClass.eofErrorC =>
    [ExcClass.eofErrorC, ExcClass.exceptionC, ExcClass.baseExceptionC]

/-- Whether an `except target:` clause catches an exception of class `c`. -/
def isSubclassOf (c target : ExcClass) : Bool :=
  (ancestors c).contains target

/-- A raised exception: its class, and — meaningful for `typer.Exit` — the
exit code it carries. -/
structure PyExc where
  cls : ExcClass
  exitCode : Nat
deriving DecidableEq, Repr

/-- What happens while the body of `process_command` runs, before its
top-level handlers see anything: it completes, a `KeyboardInterrupt`
arrives inside the streaming loop (the one place with its own inner
handler), or some step raises an exception. -/
inductive ProcessBodyEvent where
  | completes
  | interruptDuringStreaming
  | raises (e : PyExc)
deriving DecidableEq, Repr

/-- The exception (if any) that reaches `process_command`'s outer `try`
after the inner streaming handler (\_\_main\_\_.py lines 274-281) runs: an
interrupt during streaming is caught there and re-raised as
`typer.Exit(0)`. -/
def processInnerResult : ProcessBodyEvent → Option PyExc
  | ProcessBodyEvent.completes => none
  | ProcessBodyEvent.interruptDuringStreaming => some ⟨ExcClass.typerExitC, 0⟩
  | ProcessBodyEvent.raises e => some e

/-- The observable result of running one CLI command: a process exit code,
or an exception escaping the command function unformatted. -/
inductive CommandResult where
  | exitCode (code : Nat)
  | uncaught (e : PyExc)
deriving DecidableEq, Repr

/-- How the CLI framework finishes a command invocation: a normal return
exits 0, a propagating `typer.Exit` becomes that exit code, and any other
propagating exception is an unformatted crash. -/
def commandOutcome : Option PyExc → CommandResult
  | none => CommandResult.exitCode 0
  | some e =>
    if e.cls == ExcClass.typerExitC then
      CommandResult.exitCode e.exitCode
    else
      CommandResult.uncaught e

/-- `process_command`'s top-level boundary (\_\_main\_\_.py lines 220-297):
the outer `except KeyboardInterrupt` raises `typer.Exit(0)` and the outer
`except Exception` raises `typer.Exit(code=1)`, applied to whatever
exception escapes the body (after the inner streaming handler). -/
def process_command (ev : ProcessBodyEvent) : CommandResult :=
  commandOutcome
    (match processInnerResult ev with
     | none => none
     | some e =>
       if isSubclassOf e.cls ExcClass.keyboardInterruptC then
         some ⟨ExcClass.typerExitC, 0⟩
       else if isSubclassOf e.cls ExcClass.exceptionC then
         some ⟨ExcClass.typerExitC, 1⟩
       else
         some e)

/-- C9, evaluated at the failing input: a user interrupt during streaming
in `process_command` exits with code 1, not the claimed 0 — the
`typer.Exit(0)` raised by the inner interrupt handler is an `Exception`
subclass (via `RuntimeError`), so the outer `except Exception` catches it
and re-raises `typer.Exit(code=1)`.  The remaining conjuncts show the other
paths match the claim: success exits 0, a handled error exits 1, and an
interrupt outside the streaming loop exits 0. -/
theorem process_command_stream_interrupt_bug :
    process_command ProcessBodyEvent.interruptDuringStreaming =
      CommandResult.exitCode 1 ∧
    CommandResult.exitCode 1 ≠ CommandResult.exitCode 0 ∧
    process_command ProcessBodyEvent.completes = CommandResult.exitCode 0 ∧
    process_command (ProcessBodyEvent.raises ⟨ExcClass.valueErrorC, 0⟩) =
      CommandResult.exitCode 1 ∧
    process_command (ProcessBodyEvent.raises ⟨ExcClass.keyboardInterruptC, 0⟩) =
      CommandResult.exitCode 0 := by
  decide

end CliTemplate
